import Mathlib

/-!
Verification of `pkg/resource/unstructured/client.go`: the `WrapperClient`
adapter that operates on the underlying `*unstructured.Unstructured` whenever
the object passed to it satisfies the `Wrapper` (or `ListWrapper`) interface.

Shallow embedding notes.
* A Go pointer (`*unstructured.Unstructured`, possibly nil) is a `Ref`.
* A `client.Object` / `client.ObjectList` interface value handed to the
  adapter is a `KObject`: its reference identity plus the result of the two
  dynamic capability probes.  `wrapper = some u` means the dynamic type
  asserts to `Wrapper` and `GetUnstructured()` returns `u`;
  `listWrapper = some u` means it asserts to `ListWrapper` and
  `GetUnstructuredList()` returns `u`; `none` means the assertion fails.
* The interface value that the adapter forwards to the underlying client is
  an `ObjArg` (resp. `ListArg`): either the caller's original argument,
  unchanged, or a bare unstructured pointer obtained from the capability.
* The underlying `client.Client` is an arbitrary record of result functions,
  one per operation, over the forwarded argument, the (opaque) context, the
  operation-specific arguments and the variadic options bundle.  Errors are
  `Err := Option Nat` (`none` is Go's nil error).
-/

/-- Go `context.Context`, opaque to the adapter and forwarded verbatim. -/
abbrev Ctx := Nat

/-- A Go `error` result: `none` is the nil error. -/
abbrev Err := Option Nat

/-- A possibly-nil Go pointer, identified by the address it points to. -/
inductive Ref where
  | nilPtr : Ref
  | addr : Nat → Ref
deriving DecidableEq, Repr

/-- A `client.Object` (or `client.ObjectList`) interface value as received by
the adapter: its reference identity and the outcome of the `obj.(Wrapper)`
and `list.(ListWrapper)` dynamic probes of `client.go`.  A dynamic type may
implement either capability, both, or neither. -/
structure KObject where
  ref : Ref
  wrapper : Option Ref
  listWrapper : Option Ref
deriving DecidableEq, Repr

/-- The `client.Object` interface value the adapter passes down: either the
original argument unchanged, or the `*unstructured.Unstructured` returned by
`GetUnstructured()`. -/
inductive ObjArg where
  | original : KObject → ObjArg
  | unstructured : Ref → ObjArg
deriving DecidableEq, Repr

/-- The `client.ObjectList` interface value the adapter passes down. -/
inductive ListArg where
  | original : KObject → ListArg
  | unstructuredList : Ref → ListArg
deriving DecidableEq, Repr

/-- Go `client.ObjectKey` from `sigs.k8s.io/controller-runtime`. -/
structure client.ObjectKey where
  name : String
  ns : String
deriving DecidableEq, Repr

/-- Go `client.Patch`, opaque and forwarded verbatim. -/
abbrev client.Patch := Nat

/-- The variadic `...client.GetOption` bundle, opaque. -/
abbrev client.GetOptions := Nat

/-- The variadic `...client.ListOption` bundle, opaque. -/
abbrev client.ListOptions := Nat

/-- The variadic `...client.CreateOption` bundle, opaque. -/
abbrev client.CreateOptions := Nat

/-- The variadic `...client.DeleteOption` bundle, opaque. -/
abbrev client.DeleteOptions := Nat

/-- The variadic `...client.UpdateOption` bundle, opaque. -/
abbrev client.UpdateOptions := Nat

/-- The variadic `...client.PatchOption` bundle, opaque. -/
abbrev client.PatchOptions := Nat

/-- The variadic `...client.DeleteAllOfOption` bundle, opaque. -/
abbrev client.DeleteAllOfOptions := Nat

/-- Go `*runtime.Scheme`, opaque. -/
abbrev runtime.Scheme := Nat

/-- Go `meta.RESTMapper`, opaque. -/
abbrev apimeta.RESTMapper := Nat

/-- Go `client.StatusWriter`: the result behaviour of the underlying status
subresource writer, one function per operation. -/
structure client.StatusWriter where
  update : Ctx → ObjArg → client.UpdateOptions → Err
  patch : Ctx → ObjArg → client.Patch → client.PatchOptions → Err
deriving Inhabited

/-- The underlying `client.Client` wrapped by the adapter: an arbitrary
result behaviour per operation, plus its status writer, scheme and REST
mapper accessor values. -/
structure client.Client where
  get : Ctx → client.ObjectKey → ObjArg → client.GetOptions → Err
  list : Ctx → ListArg → client.ListOptions → Err
  create : Ctx → ObjArg → client.CreateOptions → Err
  delete : Ctx → ObjArg → client.DeleteOptions → Err
  update : Ctx → ObjArg → client.UpdateOptions → Err
  patch : Ctx → ObjArg → client.Patch → client.PatchOptions → Err
  deleteAllOf : Ctx → ObjArg → client.DeleteAllOfOptions → Err
  status : client.StatusWriter
  scheme : runtime.Scheme
  restMapper : apimeta.RESTMapper
deriving Inhabited

/-- `WrapperClient` from `client.go`: holds the single field `kube`. -/
structure WrapperClient where
  kube : client.Client

/-- `NewClient` from `client.go`: `return &WrapperClient{kube: c}`. -/
def NewClient (c : client.Client) : WrapperClient :=
  { kube := c }

/-- `WrapperClient.Get`: if `obj` asserts to `Wrapper`, delegate with
`u.GetUnstructured()`, otherwise with `obj` itself. -/
def WrapperClient.Get (c : WrapperClient) (ctx : Ctx) (key : client.ObjectKey)
    (obj : KObject) (opts : client.GetOptions) : Err :=
  match obj.wrapper with
  | some u => c.kube.get ctx key (ObjArg.unstructured u) opts
  | none => c.kube.get ctx key (ObjArg.original obj) opts

/-- `WrapperClient.List`: if `list` asserts to `ListWrapper`, delegate with
`u.GetUnstructuredList()`, otherwise with `list` itself. -/
def WrapperClient.List (c : WrapperClient) (ctx : Ctx)
    (lst : KObject) (opts : client.ListOptions) : Err :=
  match lst.listWrapper with
  | some u => c.kube.list ctx (ListArg.unstructuredList u) opts
  | none => c.kube.list ctx (ListArg.original lst) opts

/-- `WrapperClient.Create` from `client.go`. -/
def WrapperClient.Create (c : WrapperClient) (ctx : Ctx)
    (obj : KObject) (opts : client.CreateOptions) : Err :=
  match obj.wrapper with
  | some u => c.kube.create ctx (ObjArg.unstructured u) opts
  | none => c.kube.create ctx (ObjArg.original obj) opts

/-- `WrapperClient.Delete` from `client.go`. -/
def WrapperClient.Delete (c : WrapperClient) (ctx : Ctx)
    (obj : KObject) (opts : client.DeleteOptions) : Err :=
  match obj.wrapper with
  | some u => c.kube.delete ctx (ObjArg.unstructured u) opts
  | none => c.kube.delete ctx (ObjArg.original obj) opts

/-- `WrapperClient.Update` from `client.go`. -/
def WrapperClient.Update (c : WrapperClient) (ctx : Ctx)
    (obj : KObject) (opts : client.UpdateOptions) : Err :=
  match obj.wrapper with
  | some u => c.kube.update ctx (ObjArg.unstructured u) opts
  | none => c.kube.update ctx (ObjArg.original obj) opts

/-- `WrapperClient.Patch` from `client.go`. -/
def WrapperClient.Patch (c : WrapperClient) (ctx : Ctx)
    (obj : KObject) (pt : client.Patch) (opts : client.PatchOptions) : Err :=
  match obj.wrapper with
  | some u => c.kube.patch ctx (ObjArg.unstructured u) pt opts
  | none => c.kube.patch ctx (ObjArg.original obj) pt opts

/-- `WrapperClient.DeleteAllOf` from `client.go`. -/
def WrapperClient.DeleteAllOf (c : WrapperClient) (ctx : Ctx)
    (obj : KObject) (opts : client.DeleteAllOfOptions) : Err :=
  match obj.wrapper with
  | some u => c.kube.deleteAllOf ctx (ObjArg.unstructured u) opts
  | none => c.kube.deleteAllOf ctx (ObjArg.original obj) opts

/-- `wrapperStatusClient` from `client.go`: holds the single field `kube`,
the underlying status writer. -/
structure wrapperStatusClient where
  kube : client.StatusWriter

/-- `WrapperClient.Status`: `return &wrapperStatusClient{kube: c.kube.Status()}`,
evaluated afresh on every call. -/
def WrapperClient.Status (c : WrapperClient) : wrapperStatusClient :=
  { kube := c.kube.status }

/-- `WrapperClient.Scheme`: `return c.kube.Scheme()`. -/
def WrapperClient.Scheme (c : WrapperClient) : runtime.Scheme :=
  c.kube.scheme

/-- `WrapperClient.RESTMapper`: `return c.kube.RESTMapper()`. -/
def WrapperClient.RESTMapper (c : WrapperClient) : apimeta.RESTMapper :=
  c.kube.restMapper

/-- `wrapperStatusClient.Update` from `client.go`: same substitution rule as
`WrapperClient.Update`, against the underlying status writer. -/
def wrapperStatusClient.Update (c : wrapperStatusClient) (ctx : Ctx)
    (obj : KObject) (opts : client.UpdateOptions) : Err :=
  match obj.wrapper with
  | some u => c.kube.update ctx (ObjArg.unstructured u) opts
  | none => c.kube.update ctx (ObjArg.original obj) opts

/-- `wrapperStatusClient.Patch` from `client.go`: same substitution rule as
`WrapperClient.Patch`, against the underlying status writer. -/
def wrapperStatusClient.Patch (c : wrapperStatusClient) (ctx : Ctx)
    (obj : KObject) (pt : client.Patch) (opts : client.PatchOptions) : Err :=
  match obj.wrapper with
  | some u => c.kube.patch ctx (ObjArg.unstructured u) pt opts
  | none => c.kube.patch ctx (ObjArg.original obj) pt opts

/-- The argument the adapter hands to the underlying client for an object
operation: the unstructured reference when the `Wrapper` probe succeeds, the
original object otherwise. -/
def KObject.asObjArg (o : KObject) : ObjArg :=
  match o.wrapper with
  | some u => ObjArg.unstructured u
  | none => ObjArg.original o

/-- The argument the adapter hands to the underlying client for `List`. -/
def KObject.asListArg (o : KObject) : ListArg :=
  match o.listWrapper with
  | some u => ListArg.unstructuredList u
  | none => ListArg.original o

lemma get_delegates (c : WrapperClient) (ctx : Ctx) (key : client.ObjectKey)
    (obj : KObject) (opts : client.GetOptions) :
    c.Get ctx key obj opts = c.kube.get ctx key obj.asObjArg opts := by
  cases h : obj.wrapper <;> simp [WrapperClient.Get, KObject.asObjArg, h]

lemma list_delegates (c : WrapperClient) (ctx : Ctx)
    (lst : KObject) (opts : client.ListOptions) :
    c.List ctx lst opts = c.kube.list ctx lst.asListArg opts := by
  cases h : lst.listWrapper <;> simp [WrapperClient.List, KObject.asListArg, h]

lemma create_delegates (c : WrapperClient) (ctx : Ctx)
    (obj : KObject) (opts : client.CreateOptions) :
    c.Create ctx obj opts = c.kube.create ctx obj.asObjArg opts := by
  cases h : obj.wrapper <;> simp [WrapperClient.Create, KObject.asObjArg, h]

lemma delete_delegates (c : WrapperClient) (ctx : Ctx)
    (obj : KObject) (opts : client.DeleteOptions) :
    c.Delete ctx obj opts = c.kube.delete ctx obj.asObjArg opts := by
  cases h : obj.wrapper <;> simp [WrapperClient.Delete, KObject.asObjArg, h]

lemma update_delegates (c : WrapperClient) (ctx : Ctx)
    (obj : KObject) (opts : client.UpdateOptions) :
    c.Update ctx obj opts = c.kube.update ctx obj.asObjArg opts := by
  cases h : obj.wrapper <;> simp [WrapperClient.Update, KObject.asObjArg, h]

lemma patch_delegates (c : WrapperClient) (ctx : Ctx) (obj : KObject)
    (pt : client.Patch) (opts : client.PatchOptions) :
    c.Patch ctx obj pt opts = c.kube.patch ctx obj.asObjArg pt opts := by
  cases h : obj.wrapper <;> simp [WrapperClient.Patch, KObject.asObjArg, h]

lemma deleteAllOf_delegates (c : WrapperClient) (ctx : Ctx)
    (obj : KObject) (opts : client.DeleteAllOfOptions) :
    c.DeleteAllOf ctx obj opts = c.kube.deleteAllOf ctx obj.asObjArg opts := by
  cases h : obj.wrapper <;> simp [WrapperClient.DeleteAllOf, KObject.asObjArg, h]

lemma status_update_delegates (c : wrapperStatusClient) (ctx : Ctx)
    (obj : KObject) (opts : client.UpdateOptions) :
    c.Update ctx obj opts = c.kube.update ctx obj.asObjArg opts := by
  cases h : obj.wrapper <;> simp [wrapperStatusClient.Update, KObject.asObjArg, h]

lemma status_patch_delegates (c : wrapperStatusClient) (ctx : Ctx) (obj : KObject)
    (pt : client.Patch) (opts : client.PatchOptions) :
    c.Patch ctx obj pt opts = c.kube.patch ctx obj.asObjArg pt opts := by
  cases h : obj.wrapper <;> simp [wrapperStatusClient.Patch, KObject.asObjArg, h]

/-- One call against the adapter's client surface, with all of its
arguments. -/
inductive Op where
  | get : Ctx → client.ObjectKey → KObject → client.GetOptions → Op
  | list : Ctx → KObject → client.ListOptions → Op
  | create : Ctx → KObject → client.CreateOptions → Op
  | delete : Ctx → KObject → client.DeleteOptions → Op
  | update : Ctx → KObject → client.UpdateOptions → Op
  | patch : Ctx → KObject → client.Patch → client.PatchOptions → Op
  | deleteAllOf : Ctx → KObject → client.DeleteAllOfOptions → Op

/-- One adapter method call, threading the receiver.  Every method body in
`client.go` reads `c.kube` and never assigns to it, so the receiver after
the call is the receiver before the call. -/
def WrapperClient.step (w : WrapperClient) : Op → Err × WrapperClient
  | Op.get ctx key obj opts => (w.Get ctx key obj opts, w)
  | Op.list ctx lst opts => (w.List ctx lst opts, w)
  | Op.create ctx obj opts => (w.Create ctx obj opts, w)
  | Op.delete ctx obj opts => (w.Delete ctx obj opts, w)
  | Op.update ctx obj opts => (w.Update ctx obj opts, w)
  | Op.patch ctx obj pt opts => (w.Patch ctx obj pt opts, w)
  | Op.deleteAllOf ctx obj opts => (w.DeleteAllOf ctx obj opts, w)

/-- A sequence of adapter calls, collecting each call's result and the
final receiver. -/
def runOps (w : WrapperClient) : List Op → List Err × WrapperClient
  | [] => ([], w)
  | op :: rest =>
      let s := w.step op
      let r := runOps s.2 rest
      (s.1 :: r.1, r.2)

/-- The result the underlying client `c` itself produces for a call: the
corresponding operation of `c`, applied to the forwarded argument. -/
def evalOp (c : client.Client) : Op → Err
  | Op.get ctx key obj opts => c.get ctx key obj.asObjArg opts
  | Op.list ctx lst opts => c.list ctx lst.asListArg opts
  | Op.create ctx obj opts => c.create ctx obj.asObjArg opts
  | Op.delete ctx obj opts => c.delete ctx obj.asObjArg opts
  | Op.update ctx obj opts => c.update ctx obj.asObjArg opts
  | Op.patch ctx obj pt opts => c.patch ctx obj.asObjArg pt opts
  | Op.deleteAllOf ctx obj opts => c.deleteAllOf ctx obj.asObjArg opts

lemma step_eval (w : WrapperClient) (op : Op) :
    w.step op = (evalOp w.kube op, w) := by
  cases op <;>
    simp [WrapperClient.step, evalOp, get_delegates, list_delegates,
      create_delegates, delete_delegates, update_delegates, patch_delegates,
      deleteAllOf_delegates]

lemma runOps_eval (w : WrapperClient) (ops : List Op) :
    runOps w ops = (ops.map (evalOp w.kube), w) := by
  induction ops with
  | nil => simp [runOps]
  | cons op rest ih => simp [runOps, step_eval, ih]

/-- The mutable store: one cell per address, with opaque contents.  The cell
of a non-nil reference holds the state of the value it points to. -/
abbrev Heap := Nat → Nat

/-- The cell an underlying-client call writes its result into: the reference
it was handed. -/
def ObjArg.target : ObjArg → Ref
  | ObjArg.original o => o.ref
  | ObjArg.unstructured u => u

/-- `WrapperClient.Update` with the underlying call's write-back effect made
explicit: `kubeUpdate` is the underlying client's `Update`, acting on the
heap, and the adapter merely chooses which reference to hand it, exactly as
in `client.go`. -/
def WrapperClient.updateE
    (kubeUpdate : Ctx → ObjArg → client.UpdateOptions → Heap → Err × Heap)
    (ctx : Ctx) (obj : KObject) (opts : client.UpdateOptions) (h : Heap) :
    Err × Heap :=
  match obj.wrapper with
  | some u => kubeUpdate ctx (ObjArg.unstructured u) opts h
  | none => kubeUpdate ctx (ObjArg.original obj) opts h

/-- A sample underlying client used by the witnesses. -/
def kubeEx : client.Client where
  get := fun ctx _ _ opts => some (ctx + opts)
  list := fun ctx _ opts => some (ctx + opts + 1)
  create := fun ctx _ opts => some (ctx + opts + 2)
  delete := fun ctx _ opts => some (ctx + opts + 3)
  update := fun ctx _ opts => some (ctx + opts + 4)
  patch := fun ctx _ pt opts => some (ctx + pt + opts + 5)
  deleteAllOf := fun ctx _ opts => some (ctx + opts + 6)
  status :=
    { update := fun ctx _ opts => some (ctx + opts + 7)
      patch := fun ctx _ pt opts => some (ctx + pt + opts + 8) }
  scheme := 3
  restMapper := 4

/-- The lookup key of the spec's `Get` scenario. -/
def keyEx : client.ObjectKey :=
  { name := "foo", ns := "bar" }

/-- A plain typed object: implements neither capability. -/
def objPlain : KObject :=
  { ref := Ref.addr 0, wrapper := none, listWrapper := none }

/-- A list that implements `Wrapper` but not `ListWrapper`. -/
def lstPlain : KObject :=
  { ref := Ref.addr 1, wrapper := some (Ref.addr 9), listWrapper := none }

/-- An object implementing `Wrapper`, exposing the cell at address 2. -/
def objWrap : KObject :=
  { ref := Ref.addr 3, wrapper := some (Ref.addr 2), listWrapper := none }

/-- A list implementing `ListWrapper`, exposing the cell at address 4. -/
def lstWrap : KObject :=
  { ref := Ref.addr 5, wrapper := none, listWrapper := some (Ref.addr 4) }

/-- An object implementing `ListWrapper` only. -/
def objListOnly : KObject :=
  { ref := Ref.addr 6, wrapper := none, listWrapper := some (Ref.addr 7) }

/-- An object whose `GetUnstructured()` returns the nil pointer. -/
def objNil : KObject :=
  { ref := Ref.addr 8, wrapper := some Ref.nilPtr, listWrapper := none }

/-- A list whose `GetUnstructuredList()` returns the nil pointer. -/
def lstNil : KObject :=
  { ref := Ref.addr 10, wrapper := none, listWrapper := some Ref.nilPtr }

/-- Claim C1: for every object (or list) argument whose dynamic type does not
implement the `Wrapper` (resp. `ListWrapper`) capability, each of
`WrapperClient`'s operations `Get`, `List`, `Create`, `Delete`, `Update`,
`Patch` and `DeleteAllOf` calls the identical operation on the wrapped
underlying client with the exact same object reference, the same key/patch
arguments and the same options, and returns exactly the underlying client's
result. -/
theorem C1_plain_objects_forward_unchanged
    (c : client.Client) (ctx : Ctx) (key : client.ObjectKey) (pt : client.Patch)
    (obj lst : KObject)
    (gopt : client.GetOptions) (lopt : client.ListOptions)
    (copt : client.CreateOptions) (dopt : client.DeleteOptions)
    (uopt : client.UpdateOptions) (popt : client.PatchOptions)
    (daopt : client.DeleteAllOfOptions)
    (hobj : obj.wrapper = none) (hlst : lst.listWrapper = none) :
    (NewClient c).Get ctx key obj gopt = c.get ctx key (ObjArg.original obj) gopt ∧
    (NewClient c).List ctx lst lopt = c.list ctx (ListArg.original lst) lopt ∧
    (NewClient c).Create ctx obj copt = c.create ctx (ObjArg.original obj) copt ∧
    (NewClient c).Delete ctx obj dopt = c.delete ctx (ObjArg.original obj) dopt ∧
    (NewClient c).Update ctx obj uopt = c.update ctx (ObjArg.original obj) uopt ∧
    (NewClient c).Patch ctx obj pt popt = c.patch ctx (ObjArg.original obj) pt popt ∧
    (NewClient c).DeleteAllOf ctx obj daopt = c.deleteAllOf ctx (ObjArg.original obj) daopt := by
  refine ⟨?_, ?_, ?_, ?_, ?_, ?_, ?_⟩ <;>
    simp [WrapperClient.Get, WrapperClient.List, WrapperClient.Create,
      WrapperClient.Delete, WrapperClient.Update, WrapperClient.Patch,
      WrapperClient.DeleteAllOf, NewClient, hobj, hlst]

/-- Witness for C1, at the spec's `Get` scenario key. -/
theorem C1_plain_objects_forward_unchanged_witness :
    objPlain.wrapper = none ∧ lstPlain.listWrapper = none ∧
    ((NewClient kubeEx).Get 0 keyEx objPlain 0 = kubeEx.get 0 keyEx (ObjArg.original objPlain) 0 ∧
     (NewClient kubeEx).List 0 lstPlain 0 = kubeEx.list 0 (ListArg.original lstPlain) 0 ∧
     (NewClient kubeEx).Create 0 objPlain 0 = kubeEx.create 0 (ObjArg.original objPlain) 0 ∧
     (NewClient kubeEx).Delete 0 objPlain 0 = kubeEx.delete 0 (ObjArg.original objPlain) 0 ∧
     (NewClient kubeEx).Update 0 objPlain 0 = kubeEx.update 0 (ObjArg.original objPlain) 0 ∧
     (NewClient kubeEx).Patch 0 objPlain 0 0 = kubeEx.patch 0 (ObjArg.original objPlain) 0 0 ∧
     (NewClient kubeEx).DeleteAllOf 0 objPlain 0 = kubeEx.deleteAllOf 0 (ObjArg.original objPlain) 0) :=
  ⟨rfl, rfl,
    C1_plain_objects_forward_unchanged kubeEx 0 keyEx 0 objPlain lstPlain
      0 0 0 0 0 0 0 rfl rfl⟩

/-- Claim C2: for every object implementing `Wrapper` (resp. list implementing
`ListWrapper`), each operation calls the identical underlying operation with
the reference returned by `GetUnstructured()` (resp. `GetUnstructuredList()`)
in place of the original argument, all other arguments and options
unchanged. -/
theorem C2_wrapped_objects_substituted
    (c : client.Client) (ctx : Ctx) (key : client.ObjectKey) (pt : client.Patch)
    (obj lst : KObject) (u ul : Ref)
    (gopt : client.GetOptions) (lopt : client.ListOptions)
    (copt : client.CreateOptions) (dopt : client.DeleteOptions)
    (uopt : client.UpdateOptions) (popt : client.PatchOptions)
    (daopt : client.DeleteAllOfOptions)
    (hobj : obj.wrapper = some u) (hlst : lst.listWrapper = some ul) :
    (NewClient c).Get ctx key obj gopt = c.get ctx key (ObjArg.unstructured u) gopt ∧
    (NewClient c).List ctx lst lopt = c.list ctx (ListArg.unstructuredList ul) lopt ∧
    (NewClient c).Create ctx obj copt = c.create ctx (ObjArg.unstructured u) copt ∧
    (NewClient c).Delete ctx obj dopt = c.delete ctx (ObjArg.unstructured u) dopt ∧
    (NewClient c).Update ctx obj uopt = c.update ctx (ObjArg.unstructured u) uopt ∧
    (NewClient c).Patch ctx obj pt popt = c.patch ctx (ObjArg.unstructured u) pt popt ∧
    (NewClient c).DeleteAllOf ctx obj daopt = c.deleteAllOf ctx (ObjArg.unstructured u) daopt := by
  refine ⟨?_, ?_, ?_, ?_, ?_, ?_, ?_⟩ <;>
    simp [WrapperClient.Get, WrapperClient.List, WrapperClient.Create,
      WrapperClient.Delete, WrapperClient.Update, WrapperClient.Patch,
      WrapperClient.DeleteAllOf, NewClient, hobj, hlst]

/-- Witness for C2. -/
theorem C2_wrapped_objects_substituted_witness :
    objWrap.wrapper = some (Ref.addr 2) ∧ lstWrap.listWrapper = some (Ref.addr 4) ∧
    ((NewClient kubeEx).Get 0 keyEx objWrap 0 = kubeEx.get 0 keyEx (ObjArg.unstructured (Ref.addr 2)) 0 ∧
     (NewClient kubeEx).List 0 lstWrap 0 = kubeEx.list 0 (ListArg.unstructuredList (Ref.addr 4)) 0 ∧
     (NewClient kubeEx).Create 0 objWrap 0 = kubeEx.create 0 (ObjArg.unstructured (Ref.addr 2)) 0 ∧
     (NewClient kubeEx).Delete 0 objWrap 0 = kubeEx.delete 0 (ObjArg.unstructured (Ref.addr 2)) 0 ∧
     (NewClient kubeEx).Update 0 objWrap 0 = kubeEx.update 0 (ObjArg.unstructured (Ref.addr 2)) 0 ∧
     (NewClient kubeEx).Patch 0 objWrap 0 0 = kubeEx.patch 0 (ObjArg.unstructured (Ref.addr 2)) 0 0 ∧
     (NewClient kubeEx).DeleteAllOf 0 objWrap 0 = kubeEx.deleteAllOf 0 (ObjArg.unstructured (Ref.addr 2)) 0) :=
  ⟨rfl, rfl,
    C2_wrapped_objects_substituted kubeEx 0 keyEx 0 objWrap lstWrap
      (Ref.addr 2) (Ref.addr 4) 0 0 0 0 0 0 0 rfl rfl⟩

/-- Claim C3: on the substitution path, after the call the original object's
own cell is unmodified by the adapter — the underlying call writes only into
the reference it was handed, and the adapter hands it the exposed
unstructured reference `u`, so every cell other than the one `u` points to
(in particular the original object's own cell, whenever it differs from `u`)
is unchanged. -/
theorem C3_update_frame
    (kubeUpdate : Ctx → ObjArg → client.UpdateOptions → Heap → Err × Heap)
    (hframe : ∀ ctx a opts h x,
      Ref.addr x ≠ a.target → (kubeUpdate ctx a opts h).2 x = h x)
    (ctx : Ctx) (obj : KObject) (u : Ref) (opts : client.UpdateOptions)
    (hw : obj.wrapper = some u) (h : Heap) (x : Nat) (hx : Ref.addr x ≠ u) :
    WrapperClient.updateE kubeUpdate ctx obj opts h =
      kubeUpdate ctx (ObjArg.unstructured u) opts h ∧
    (WrapperClient.updateE kubeUpdate ctx obj opts h).2 x = h x := by
  have he : WrapperClient.updateE kubeUpdate ctx obj opts h =
      kubeUpdate ctx (ObjArg.unstructured u) opts h := by
    simp [WrapperClient.updateE, hw]
  refine ⟨he, ?_⟩
  rw [he]
  exact hframe ctx (ObjArg.unstructured u) opts h x (by simpa [ObjArg.target] using hx)

/-- A sample effectful underlying `Update`: writes `99` into the cell of the
reference it is handed and reports error `some 7`. -/
def kubeUpdateEx : Ctx → ObjArg → client.UpdateOptions → Heap → Err × Heap :=
  fun _ a _ h => (some 7, fun y => if Ref.addr y = a.target then 99 else h y)

lemma kubeUpdateEx_frame :
    ∀ ctx a opts h x, Ref.addr x ≠ a.target → (kubeUpdateEx ctx a opts h).2 x = h x := by
  intro ctx a opts h x hx
  simp [kubeUpdateEx, hx]

/-- The all-zero starting heap used by the C3 witness. -/
def heap0 : Heap := fun _ => 0

/-- Witness for C3: `objWrap` lives at address 3 and exposes address 2; its
own cell at 3 is untouched by the update. -/
theorem C3_update_frame_witness :
    (∀ ctx a opts h x, Ref.addr x ≠ a.target → (kubeUpdateEx ctx a opts h).2 x = h x) ∧
    objWrap.wrapper = some (Ref.addr 2) ∧
    Ref.addr 3 ≠ Ref.addr 2 ∧
    (WrapperClient.updateE kubeUpdateEx 0 objWrap 0 heap0 =
       kubeUpdateEx 0 (ObjArg.unstructured (Ref.addr 2)) 0 heap0 ∧
     (WrapperClient.updateE kubeUpdateEx 0 objWrap 0 heap0).2 3 = heap0 3) :=
  ⟨kubeUpdateEx_frame, rfl, by decide,
    C3_update_frame kubeUpdateEx kubeUpdateEx_frame 0 objWrap (Ref.addr 2) 0 rfl
      heap0 3 (by decide)⟩

/-- Claim C4: for every operation of `WrapperClient` and of the status
subresource client, the result returned to the caller is exactly the result
of the underlying client's corresponding call on the forwarded argument; the
capability check itself is total and introduces no failure mode. -/
theorem C4_errors_verbatim
    (c : client.Client) (ctx : Ctx) (key : client.ObjectKey) (pt : client.Patch)
    (obj lst : KObject)
    (gopt : client.GetOptions) (lopt : client.ListOptions)
    (copt : client.CreateOptions) (dopt : client.DeleteOptions)
    (uopt : client.UpdateOptions) (popt : client.PatchOptions)
    (daopt : client.DeleteAllOfOptions) :
    (NewClient c).Get ctx key obj gopt = c.get ctx key obj.asObjArg gopt ∧
    (NewClient c).List ctx lst lopt = c.list ctx lst.asListArg lopt ∧
    (NewClient c).Create ctx obj copt = c.create ctx obj.asObjArg copt ∧
    (NewClient c).Delete ctx obj dopt = c.delete ctx obj.asObjArg dopt ∧
    (NewClient c).Update ctx obj uopt = c.update ctx obj.asObjArg uopt ∧
    (NewClient c).Patch ctx obj pt popt = c.patch ctx obj.asObjArg pt popt ∧
    (NewClient c).DeleteAllOf ctx obj daopt = c.deleteAllOf ctx obj.asObjArg daopt ∧
    ((NewClient c).Status).Update ctx obj uopt = c.status.update ctx obj.asObjArg uopt ∧
    ((NewClient c).Status).Patch ctx obj pt popt = c.status.patch ctx obj.asObjArg pt popt :=
  ⟨get_delegates (NewClient c) ctx key obj gopt,
   list_delegates (NewClient c) ctx lst lopt,
   create_delegates (NewClient c) ctx obj copt,
   delete_delegates (NewClient c) ctx obj dopt,
   update_delegates (NewClient c) ctx obj uopt,
   patch_delegates (NewClient c) ctx obj pt popt,
   deleteAllOf_delegates (NewClient c) ctx obj daopt,
   status_update_delegates ((NewClient c).Status) ctx obj uopt,
   status_patch_delegates ((NewClient c).Status) ctx obj pt popt⟩

/-- Claim C5: the status client returned by `WrapperClient.Status()` applies
the same substitution rule as `WrapperClient` to `Update` and `Patch`: the
exposed unstructured reference when the object implements `Wrapper`, the
original object otherwise, options and patch unmodified in both cases. -/
theorem C5_status_substitution
    (c : client.Client) (ctx : Ctx) (pt : client.Patch)
    (objW objP : KObject) (u : Ref)
    (uopt : client.UpdateOptions) (popt : client.PatchOptions)
    (hw : objW.wrapper = some u) (hp : objP.wrapper = none) :
    ((NewClient c).Status).Update ctx objW uopt = c.status.update ctx (ObjArg.unstructured u) uopt ∧
    ((NewClient c).Status).Patch ctx objW pt popt = c.status.patch ctx (ObjArg.unstructured u) pt popt ∧
    ((NewClient c).Status).Update ctx objP uopt = c.status.update ctx (ObjArg.original objP) uopt ∧
    ((NewClient c).Status).Patch ctx objP pt popt = c.status.patch ctx (ObjArg.original objP) pt popt := by
  refine ⟨?_, ?_, ?_, ?_⟩ <;>
    simp [wrapperStatusClient.Update, wrapperStatusClient.Patch,
      WrapperClient.Status, NewClient, hw, hp]

/-- Witness for C5. -/
theorem C5_status_substitution_witness :
    objWrap.wrapper = some (Ref.addr 2) ∧ objPlain.wrapper = none ∧
    (((NewClient kubeEx).Status).Update 0 objWrap 0 =
       kubeEx.status.update 0 (ObjArg.unstructured (Ref.addr 2)) 0 ∧
     ((NewClient kubeEx).Status).Patch 0 objWrap 0 0 =
       kubeEx.status.patch 0 (ObjArg.unstructured (Ref.addr 2)) 0 0 ∧
     ((NewClient kubeEx).Status).Update 0 objPlain 0 =
       kubeEx.status.update 0 (ObjArg.original objPlain) 0 ∧
     ((NewClient kubeEx).Status).Patch 0 objPlain 0 0 =
       kubeEx.status.patch 0 (ObjArg.original objPlain) 0 0) :=
  ⟨rfl, rfl,
    C5_status_substitution kubeEx 0 0 objWrap objPlain (Ref.addr 2) 0 0 rfl rfl⟩

/-- Claim C6: every call to `WrapperClient.Status()` re-derives its result
from the underlying client's current status writer and wraps it afresh; in
particular, replacing the underlying client's status writer is reflected by
the very next `Status()` call. -/
theorem C6_status_rederived (c : client.Client) (s' : client.StatusWriter) :
    (NewClient c).Status = { kube := c.status } ∧
    (NewClient { c with status := s' }).Status = { kube := s' } :=
  ⟨rfl, rfl⟩

/-- Claim C7: `Scheme()` and `RESTMapper()` return exactly the underlying
client's values, with no substitution or other logic applied. -/
theorem C7_scheme_restmapper_forward (w : WrapperClient) :
    w.Scheme = w.kube.scheme ∧ w.RESTMapper = w.kube.restMapper :=
  ⟨rfl, rfl⟩

/-- Claim C8: the underlying client is fixed by `NewClient` and never changed
by any subsequent operation — over any sequence of calls the threaded
receiver stays the constructed adapter, every call's result is the one the
construction-time underlying client produces for it, and a `WrapperClient`
holds no state beyond its single `kube` field. -/
theorem C8_underlying_client_fixed (c : client.Client) (ops : List Op) :
    (NewClient c).kube = c ∧
    (runOps (NewClient c) ops).2 = NewClient c ∧
    (runOps (NewClient c) ops).1 = ops.map (evalOp c) ∧
    ∀ w : WrapperClient, w = { kube := w.kube } := by
  refine ⟨rfl, ?_, ?_, fun w => rfl⟩ <;> simp [runOps_eval, NewClient]

/-- Claim C9: the two capabilities are probed disjointly per argument kind —
`List` substitutes only on `ListWrapper` (a list implementing only `Wrapper`
is forwarded unchanged), and the object operations substitute only on
`Wrapper` (an object implementing only `ListWrapper` is forwarded
unchanged). -/
theorem C9_capabilities_disjoint
    (c : client.Client) (ctx : Ctx) (key : client.ObjectKey) (pt : client.Patch)
    (obj lst : KObject) (v vl : Ref)
    (gopt : client.GetOptions) (lopt : client.ListOptions)
    (copt : client.CreateOptions) (dopt : client.DeleteOptions)
    (uopt : client.UpdateOptions) (popt : client.PatchOptions)
    (daopt : client.DeleteAllOfOptions)
    (hlw : lst.wrapper = some v) (hll : lst.listWrapper = none)
    (how : obj.wrapper = none) (hol : obj.listWrapper = some vl) :
    (NewClient c).List ctx lst lopt = c.list ctx (ListArg.original lst) lopt ∧
    (NewClient c).Get ctx key obj gopt = c.get ctx key (ObjArg.original obj) gopt ∧
    (NewClient c).Create ctx obj copt = c.create ctx (ObjArg.original obj) copt ∧
    (NewClient c).Delete ctx obj dopt = c.delete ctx (ObjArg.original obj) dopt ∧
    (NewClient c).Update ctx obj uopt = c.update ctx (ObjArg.original obj) uopt ∧
    (NewClient c).Patch ctx obj pt popt = c.patch ctx (ObjArg.original obj) pt popt ∧
    (NewClient c).DeleteAllOf ctx obj daopt = c.deleteAllOf ctx (ObjArg.original obj) daopt := by
  refine ⟨?_, ?_, ?_, ?_, ?_, ?_, ?_⟩ <;>
    simp [WrapperClient.Get, WrapperClient.List, WrapperClient.Create,
      WrapperClient.Delete, WrapperClient.Update, WrapperClient.Patch,
      WrapperClient.DeleteAllOf, NewClient, how, hll]

/-- Witness for C9: `lstPlain` implements `Wrapper` only, `objListOnly`
implements `ListWrapper` only; neither triggers substitution. -/
theorem C9_capabilities_disjoint_witness :
    lstPlain.wrapper = some (Ref.addr 9) ∧ lstPlain.listWrapper = none ∧
    objListOnly.wrapper = none ∧ objListOnly.listWrapper = some (Ref.addr 7) ∧
    ((NewClient kubeEx).List 0 lstPlain 0 = kubeEx.list 0 (ListArg.original lstPlain) 0 ∧
     (NewClient kubeEx).Get 0 keyEx objListOnly 0 = kubeEx.get 0 keyEx (ObjArg.original objListOnly) 0 ∧
     (NewClient kubeEx).Create 0 objListOnly 0 = kubeEx.create 0 (ObjArg.original objListOnly) 0 ∧
     (NewClient kubeEx).Delete 0 objListOnly 0 = kubeEx.delete 0 (ObjArg.original objListOnly) 0 ∧
     (NewClient kubeEx).Update 0 objListOnly 0 = kubeEx.update 0 (ObjArg.original objListOnly) 0 ∧
     (NewClient kubeEx).Patch 0 objListOnly 0 0 = kubeEx.patch 0 (ObjArg.original objListOnly) 0 0 ∧
     (NewClient kubeEx).DeleteAllOf 0 objListOnly 0 = kubeEx.deleteAllOf 0 (ObjArg.original objListOnly) 0) :=
  ⟨rfl, rfl, rfl, rfl,
    C9_capabilities_disjoint kubeEx 0 keyEx 0 objListOnly lstPlain
      (Ref.addr 9) (Ref.addr 7) 0 0 0 0 0 0 0 rfl rfl rfl rfl⟩

/-- Claim C10: when the `Wrapper` probe succeeds but `GetUnstructured()`
returns the nil pointer, every operation (including the status client's
`Update`/`Patch`, and `List` for a nil `GetUnstructuredList()`) still takes
the substitution branch and forwards the nil reference to the underlying
client, with no guard or adapter-level error. -/
theorem C10_nil_unstructured_forwarded
    (c : client.Client) (ctx : Ctx) (key : client.ObjectKey) (pt : client.Patch)
    (obj lst : KObject)
    (gopt : client.GetOptions) (lopt : client.ListOptions)
    (copt : client.CreateOptions) (dopt : client.DeleteOptions)
    (uopt : client.UpdateOptions) (popt : client.PatchOptions)
    (daopt : client.DeleteAllOfOptions)
    (hobj : obj.wrapper = some Ref.nilPtr)
    (hlst : lst.listWrapper = some Ref.nilPtr) :
    (NewClient c).Get ctx key obj gopt = c.get ctx key (ObjArg.unstructured Ref.nilPtr) gopt ∧
    (NewClient c).List ctx lst lopt = c.list ctx (ListArg.unstructuredList Ref.nilPtr) lopt ∧
    (NewClient c).Create ctx obj copt = c.create ctx (ObjArg.unstructured Ref.nilPtr) copt ∧
    (NewClient c).Delete ctx obj dopt = c.delete ctx (ObjArg.unstructured Ref.nilPtr) dopt ∧
    (NewClient c).Update ctx obj uopt = c.update ctx (ObjArg.unstructured Ref.nilPtr) uopt ∧
    (NewClient c).Patch ctx obj pt popt = c.patch ctx (ObjArg.unstructured Ref.nilPtr) pt popt ∧
    (NewClient c).DeleteAllOf ctx obj daopt = c.deleteAllOf ctx (ObjArg.unstructured Ref.nilPtr) daopt ∧
    ((NewClient c).Status).Update ctx obj uopt = c.status.update ctx (ObjArg.unstructured Ref.nilPtr) uopt ∧
    ((NewClient c).Status).Patch ctx obj pt popt = c.status.patch ctx (ObjArg.unstructured Ref.nilPtr) pt popt := by
  refine ⟨?_, ?_, ?_, ?_, ?_, ?_, ?_, ?_, ?_⟩ <;>
    simp [WrapperClient.Get, WrapperClient.List, WrapperClient.Create,
      WrapperClient.Delete, WrapperClient.Update, WrapperClient.Patch,
      WrapperClient.DeleteAllOf, WrapperClient.Status,
      wrapperStatusClient.Update, wrapperStatusClient.Patch,
      NewClient, hobj, hlst]

/-- Witness for C10. -/
theorem C10_nil_unstructured_forwarded_witness :
    objNil.wrapper = some Ref.nilPtr ∧ lstNil.listWrapper = some Ref.nilPtr ∧
    ((NewClient kubeEx).Get 0 keyEx objNil 0 = kubeEx.get 0 keyEx (ObjArg.unstructured Ref.nilPtr) 0 ∧
     (NewClient kubeEx).List 0 lstNil 0 = kubeEx.list 0 (ListArg.unstructuredList Ref.nilPtr) 0 ∧
     (NewClient kubeEx).Create 0 objNil 0 = kubeEx.create 0 (ObjArg.unstructured Ref.nilPtr) 0 ∧
     (NewClient kubeEx).Delete 0 objNil 0 = kubeEx.delete 0 (ObjArg.unstructured Ref.nilPtr) 0 ∧
     (NewClient kubeEx).Update 0 objNil 0 = kubeEx.update 0 (ObjArg.unstructured Ref.nilPtr) 0 ∧
     (NewClient kubeEx).Patch 0 objNil 0 0 = kubeEx.patch 0 (ObjArg.unstructured Ref.nilPtr) 0 0 ∧
     (NewClient kubeEx).DeleteAllOf 0 objNil 0 = kubeEx.deleteAllOf 0 (ObjArg.unstructured Ref.nilPtr) 0 ∧
     ((NewClient kubeEx).Status).Update 0 objNil 0 = kubeEx.status.update 0 (ObjArg.unstructured Ref.nilPtr) 0 ∧
     ((NewClient kubeEx).Status).Patch 0 objNil 0 0 = kubeEx.status.patch 0 (ObjArg.unstructured Ref.nilPtr) 0 0) :=
  ⟨rfl, rfl,
    C10_nil_unstructured_forwarded kubeEx 0 keyEx 0 objNil lstNil
      0 0 0 0 0 0 0 rfl rfl⟩
